import Mathlib

/-!
Verification of the conversion engine of the `zhuanhuan` document-conversion
service (`src/converters.py`, `src/utilities.py`, `src/app.py`) against its
natural-language specification.

The Python code is shallowly embedded: pure fragments become Lean functions,
filesystem state is passed explicitly (`String → Option Nat`, mapping a path
to the size of the file there, `none` when absent), Python exceptions become
`Except String` with the messages of the corresponding `raise` sites
(Python's `f"...{type(res)}"` interpolations are abbreviated to a bare type
name by `typeName`), and the behaviour of the external conversion libraries
is a parameter of each embedded function.
-/

namespace Zhuanhuan

/-! ### Python path helpers (`os.path.basename`, `os.path.splitext`)

`converters.py` derives the input format with
`os.path.splitext(input_path)[1][1:].lower()` (line 68) and the same
expression over `output_path` at line 344.  We embed the POSIX behaviour of
`splitext`: the extension starts at the last dot of the basename that is not
one of its leading dots. -/

/-- Characters of the basename of a POSIX path: everything after the last
slash. -/
def baseChars (cs : List Char) : List Char :=
  cs.foldl (fun acc c => if c = '/' then [] else acc ++ [c]) []

/-- Python `os.path.basename` (POSIX). -/
def pyBasename (p : String) : String :=
  ⟨baseChars p.toList⟩

/-- Number of leading dots of a basename; they never start an extension. -/
def leadDots : List Char → Nat
  | '.' :: rest => 1 + leadDots rest
  | _ => 0

/-- Length of the extension of a basename (dot included), 0 when there is
none: the extension starts at the last dot whose index is at least the
number of leading dots. -/
def extLen (b : List Char) : Nat :=
  let lead := leadDots b
  let idxs := (List.range b.length).filter
    (fun i => decide (lead ≤ i) && (b.getD i ' ' == '.'))
  match idxs.getLast? with
  | some i => b.length - i
  | none => 0

/-- Python `os.path.splitext` (POSIX): root and extension of a path. -/
def pySplitext (p : String) : String × String :=
  let el := extLen (baseChars p.toList)
  (⟨p.toList.take (p.toList.length - el)⟩, ⟨p.toList.drop (p.toList.length - el)⟩)

/-- Python `str.lower` (character-wise, as the format tokens are ASCII). -/
def pyToLower (s : String) : String :=
  ⟨s.toList.map Char.toLower⟩

/-- Python `str.upper` (character-wise). -/
def pyToUpper (s : String) : String :=
  ⟨s.toList.map Char.toUpper⟩

/-- The expression `os.path.splitext(p)[1][1:].lower()` used by
`convert_file` (line 68) and `pdf_to_cad` (line 344). -/
def pyExtLower (p : String) : String :=
  pyToLower ⟨(pySplitext p).2.toList.drop 1⟩

/-! ### Technique return values

Technique functions in `converters.py` return a path string, a dict, `None`,
or (erroneously) some other value; `convert_file` inspects these shapes with
`isinstance` checks.  `pyStr` stands for every path-like value
(`str`/`bytes`/`os.PathLike`), `pyInt` for the non-dict, non-path values. -/

inductive RetVal where
  | pyNone
  | pyStr (s : String)
  | pyDict (entries : List (String × RetVal))
  | pyInt (n : Int)

/-- Python type name of a `RetVal` (stands for the `{type(res)}` piece of
the error f-strings). -/
def typeName : RetVal → String
  | .pyNone => "NoneType"
  | .pyStr _ => "str"
  | .pyDict _ => "dict"
  | .pyInt _ => "int"

/-- Python truthiness of a `RetVal` (`if not result["output_path"]`). -/
def isFalsy : RetVal → Bool
  | .pyNone => true
  | .pyStr s => s == ""
  | .pyDict d => d.isEmpty
  | .pyInt n => n == 0

/-- Key lookup in an embedded Python dict (`"output_path" in res` /
`res["output_path"]`). -/
def dictLookup : List (String × RetVal) → String → Option RetVal
  | [], _ => none
  | (k, v) :: rest, key => if k = key then some v else dictLookup rest key

/-- The nested helper `process_result` of `convert_file`
(`converters.py` lines 87-104): `None` and non-path non-dict values are
rejected, a dict must carry the `output_path` key, whose value is returned
unchanged; path-like values pass through. -/
def process_result : RetVal → Except String RetVal
  | .pyNone => .error "转换结果为空"
  | .pyDict d =>
    match dictLookup d "output_path" with
    | some v => .ok v
    | none => .error "转换结果字典缺少output_path字段"
  | .pyStr s => .ok (.pyStr s)
  | .pyInt n => .error ("转换结果类型不支持: " ++ typeName (.pyInt n))

/-! ### Format dispatch (`convert_file` lines 106-142) -/

/-- One strategy function per registered format pair. -/
inductive Strategy where
  | pdfToDocx | pdfToExcel | pdfToPptx | pdfToImages | pdfToCad
  | pdfToScannablePdf | pdfToSearchablePdf
  | imageToPdf | wordToPdf | excelToPdf | pptToPdf | txtToPdf | markdownToPdf
deriving DecidableEq, Repr

/-- Which strategy function the `if`/`elif` chain of `convert_file`
(lines 107-142) invokes for `(input_ext, to_format)`; `none` when no branch
assigns `result["output_path"]`. -/
def dispatch (input_ext to_format : String) : Option Strategy :=
  if input_ext = "pdf" then
    if to_format = "docx" then some .pdfToDocx
    else if to_format = "xlsx" then some .pdfToExcel
    else if to_format = "pptx" then some .pdfToPptx
    else if to_format = "jpg" ∨ to_format = "png" then some .pdfToImages
    else if to_format = "dwg" ∨ to_format = "dxf" ∨ to_format = "cad" then some .pdfToCad
    else if to_format = "scannable_pdf" ∨ to_format = "scanned_pdf" then some .pdfToScannablePdf
    else if to_format = "searchable_pdf" then some .pdfToSearchablePdf
    else none
  else if to_format = "pdf" then
    if input_ext = "jpg" ∨ input_ext = "jpeg" ∨ input_ext = "png" then some .imageToPdf
    else if input_ext = "doc" ∨ input_ext = "docx" then some .wordToPdf
    else if input_ext = "xls" ∨ input_ext = "xlsx" then some .excelToPdf
    else if input_ext = "ppt" ∨ input_ext = "pptx" then some .pptToPdf
    else if input_ext = "txt" then some .txtToPdf
    else if input_ext = "md" then some .markdownToPdf
    else none
  else none

/-- The message of `raise ValueError(f"不支持从 {input_ext} 转换到 {to_format}")`
(`convert_file` line 145). -/
def notSupportedMsg (input_ext to_format : String) : String :=
  "不支持从 " ++ input_ext ++ " 转换到 " ++ to_format

/-- The result record built by `convert_file` (lines 78-84). -/
structure ConvertResult where
  output_path : String
  original_filename : String
  output_filename : String
  input_format : String
  output_format : String
deriving DecidableEq, Repr

/-- The second unwrap of a nested dict performed by `convert_file`
(lines 148-153) on `result["output_path"]`. -/
def unwrapNested : RetVal → Except String RetVal
  | .pyDict d =>
    match dictLookup d "output_path" with
    | some w => .ok w
    | none => .error "转换结果包含无效的嵌套字典"
  | w => .ok w

/-- Tail of `convert_file` (lines 144-167): falsy-path check raising the
not-supported error, one more unwrap of a nested dict (lines 148-153), the
path-type check (lines 156-158) and the existence check (lines 161-163). -/
def finishConvert (fs : String → Option Nat) (input_ext to_format : String)
    (orig out_fname : String) : Except String RetVal → Except String ConvertResult
  | .error e => .error e
  | .ok v =>
    if isFalsy v then .error (notSupportedMsg input_ext to_format)
    else
      match unwrapNested v with
      | .error e => .error e
      | .ok w =>
        match w with
        | .pyStr p =>
          if (fs p).isSome then
            .ok { output_path := p, original_filename := orig,
                  output_filename := out_fname,
                  input_format := input_ext, output_format := to_format }
          else .error ("转换后的文件不存在: " ++ p)
        | w => .error ("转换函数返回了无效的输出路径类型: " ++ typeName w)

/-- `convert_file` (`converters.py` lines 54-167).  `fs` is the filesystem
at the moment of the final checks (path to size of the file there), `strat`
gives the raw return value (or raised error) of each strategy function for
this job's arguments. -/
def convert_file (fs : String → Option Nat) (strat : Strategy → Except String RetVal)
    (input_path to_format output_path : String) (original_filename : Option String) :
    Except String ConvertResult :=
  let input_ext := pyExtLower input_path
  let orig := match original_filename with
    | some n => n
    | none => pyBasename input_path
  let step1 : Except String RetVal :=
    match dispatch input_ext to_format with
    | some s =>
      match strat s with
      | .error e => .error e
      | .ok res => process_result res
    | none => .ok (.pyStr "")
  finishConvert fs input_ext to_format orig (pyBasename output_path) step1

/-! ### Supported-format table (`app.py` `get_formats`, lines 67-84) -/

/-- The `(from, to)` pairs of `get_formats`' `supported_formats` table in
`app.py` (lines 70-83), flattened. -/
def supportedPairs : List (String × String) :=
  [("pdf", "docx"), ("pdf", "xlsx"), ("pdf", "pptx"), ("pdf", "jpg"),
   ("pdf", "png"), ("pdf", "scannable_pdf"), ("pdf", "scanned_pdf"),
   ("pdf", "searchable_pdf"), ("pdf", "dwg"), ("pdf", "dxf"), ("pdf", "cad"),
   ("jpg", "pdf"), ("jpeg", "pdf"), ("png", "pdf"), ("docx", "pdf"),
   ("doc", "pdf"), ("xlsx", "pdf"), ("xls", "pdf"), ("pptx", "pdf"),
   ("ppt", "pdf"), ("txt", "pdf"), ("md", "pdf")]

/-! ### PDF → image (`pdf_to_images`, `converters.py` lines 291-331) -/

/-- The `dpi = 100 * quality` computation of `pdf_to_images` (line 296);
`pdf_to_pptx` uses the same expression (line 254). -/
def images_dpi (quality : Int) : Int := 100 * quality

/-- The artifact written by `pdf_to_images`: either a zip archive bundling
one image per page, or a single image file.  `α` is the type of rendered
page images (opaque to the engine). -/
inductive ImgArtifact (α : Type) where
  | archive (path : String) (entries : List (String × α))
  | single (path : String) (img : α)

/-- The zip entries written by the multi-page loop of `pdf_to_images`
(lines 311-315): one entry named `page_{i+1}.{img_format}` per rendered
page, in page order. -/
def imageEntries {α : Type} (images : List α) (img_format : String) :
    List (String × α) :=
  images.enum.map
    (fun pr => ("page_" ++ toString (pr.1 + 1) ++ "." ++ img_format, pr.2))

/-- `pdf_to_images` (lines 291-331).  `render dpi` stands for
`convert_from_path(input_path, dpi=dpi)`, the list of rendered page images.
More than one page: a zip at `splitext(output_path)[0] + ".zip"` with the
entries of `imageEntries`, and the zip path is returned.  Exactly one page:
the image is saved at `output_path`, which is returned.  No page at all:
`images[0]` raises `IndexError`, which the `except` turns into the
strategy's `ValueError`. -/
def pdf_to_images {α : Type} (render : Int → List α) (output_path : String)
    (quality : Int) (img_format : String) : Except String (ImgArtifact α × String) :=
  let dpi := images_dpi quality
  let images := render dpi
  if images.length > 1 then
    let zip_path := (pySplitext output_path).1 ++ ".zip"
    .ok (.archive zip_path (imageEntries images img_format), zip_path)
  else
    match images with
    | [img] => .ok (.single output_path img, output_path)
    | _ => .error "PDF转图片失败: list index out of range"

/-! ### PDF → CAD (`pdf_to_cad`, `converters.py` lines 335-371) -/

/-- Content of a file written by an embedded strategy. -/
inductive FileContent where
  | text (s : String)
  | copyOf (src : String)

/-- One file write performed by an embedded strategy. -/
structure WriteOp where
  path : String
  content : FileContent

/-- The instructional notice text written by `pdf_to_cad` (lines 348-358),
with the `{output_format.upper()}`, `{os.path.basename(input_path)}` and
`{time.strftime(...)}` interpolations as arguments. -/
def cadNotice (fmtUpper fileBase reqTime : String) : String :=
  "\nPDF转" ++ fmtUpper ++ "转换需要专业CAD软件支持。\n\n建议使用以下方法：\n" ++
  "1. 使用AutoCAD软件打开PDF文件\n2. 使用PDF2CAD等专业转换软件\n" ++
  "3. 咨询专业CAD服务提供商\n\n文件: " ++ fileBase ++ "\n请求时间: " ++
  reqTime ++ "\n            "

/-- `pdf_to_cad` (lines 335-371): writes the notice text file at
`splitext(output_path)[0] + ".txt"`, copies the source PDF to
`splitext(output_path)[0] + ".pdf"`, and returns the text file's path.
`reqTime` stands for `time.strftime('%Y-%m-%d %H:%M:%S')`. -/
def pdf_to_cad (input_path output_path : String) (quality : Int)
    (reqTime : String) : Except String (List WriteOp × String) :=
  let output_format := pyExtLower output_path
  let text_output_path := (pySplitext output_path).1 ++ ".txt"
  let pdf_output_path := (pySplitext output_path).1 ++ ".pdf"
  .ok ([⟨text_output_path,
         .text (cadNotice (pyToUpper output_format) (pyBasename input_path) reqTime)⟩,
        ⟨pdf_output_path, .copyOf input_path⟩],
       text_output_path)

/-! ### PDF → scannable PDF degradation pipeline
(`pdf_to_scannable_pdf`, `converters.py` lines 375-446) -/

/-- A rendered page image as the degradation loop sees it: dimensions and
PIL mode. -/
structure PageImg where
  width : Nat
  height : Nat
  mode : String
deriving DecidableEq, Repr

/-- One image-degradation operation of the scan-simulation loop. -/
inductive ImgOp where
  | gaussianBlur (radius : ℚ)
  | contrastEnhance (factor : ℚ)
  | addNoise (count : Nat)
deriving DecidableEq, Repr

/-- The operations the per-page loop of `pdf_to_scannable_pdf`
(lines 395-424) applies to one page image: when `quality < 3`, a Gaussian
blur of radius 0.5, a contrast enhancement by 1.2, and a loop injecting
3000 black noise speckles at random positions; nothing otherwise. -/
def scan_page_ops (quality : Int) (img : PageImg) : List ImgOp :=
  if quality < 3 then
    [.gaussianBlur (1/2 : ℚ), .contrastEnhance (6/5 : ℚ), .addNoise 3000]
  else []

/-- The whole degradation pass: `scan_page_ops` applied to every rendered
page in order. -/
def pdf_to_scannable_ops (pages : List PageImg) (quality : Int) :
    List (List ImgOp) :=
  pages.map (scan_page_ops quality)

/-! ### Office-document → PDF fallback chains
(`excel_to_pdf` lines 1115-1299, `ppt_to_pdf` lines 1303-1446)

Each technique attempt either returns `output_path` early (success) or is
caught by its `try`/`except`, which only logs the reason and falls through
to the next technique. -/

/-- Outcome of one technique attempt: success (the technique produced the
file and the function returns early), or failure with the logged reason. -/
inductive TechOutcome where
  | success
  | failure (reason : String)
deriving DecidableEq, Repr

/-- Whether some attempt of the LibreOffice candidate-path loop succeeds
(the loop returns at the first success and logs every failure). -/
def anySuccess : List TechOutcome → Bool
  | [] => false
  | .success :: _ => true
  | .failure _ :: rest => anySuccess rest

/-- `excel_to_pdf` (lines 1115-1299).  Technique chain: Office COM
automation (only reached when `os.name == 'nt'`), the LibreOffice
candidate-path loop, pandas+matplotlib table rendering, and the plain FPDF
writer.  When every technique fails, the `raise ValueError("所有Excel转PDF方
法均失败")` at line 1291 is caught by the outer handler (line 1297), which
re-raises with the message below; the logged per-technique reasons are not
part of it. -/
def excel_to_pdf (isWindows : Bool) (com : TechOutcome)
    (libre : List TechOutcome) (mpl : TechOutcome) (fp : TechOutcome)
    (output_path : String) : Except String String :=
  if isWindows && (com == .success) then .ok output_path
  else if anySuccess libre then .ok output_path
  else if mpl == .success then .ok output_path
  else if fp == .success then .ok output_path
  else .error "Excel转PDF失败: 所有Excel转PDF方法均失败"

/-- `ppt_to_pdf` (lines 1303-1446).  Technique chain: PowerPoint COM
automation (Windows only), the LibreOffice candidate-path loop, and
python-pptx+reportlab re-rendering.  When every technique fails, the
`raise ValueError("所有PPT转PDF方法均失败")` at line 1438 is caught by the
outer handler (line 1444), which re-raises with the message below. -/
def ppt_to_pdf (isWindows : Bool) (com : TechOutcome)
    (libre : List TechOutcome) (render : TechOutcome)
    (output_path : String) : Except String String :=
  if isWindows && (com == .success) then .ok output_path
  else if anySuccess libre then .ok output_path
  else if render == .success then .ok output_path
  else .error "PPT转PDF失败: 所有PPT转PDF方法均失败"

/-! ### Retention sweep (`cleanup_old_files`, `utilities.py` lines 10-48) -/

/-- A top-level entry of the swept directory: name, modification timestamp
(seconds), and whether it is a subdirectory. -/
structure DirEntry where
  name : String
  mtime : Int
  isDir : Bool
deriving DecidableEq, Repr

/-- The `for item in os.listdir(directory)` loop (lines 29-43): an entry
whose modification time is strictly before the threshold is removed
(`os.remove` for files, `shutil.rmtree` for directories, with the matching
counter bumped); every other entry is left in place.  Returns the remaining
entries with the final `files_count` and `dirs_count`. -/
def sweepEntries : List DirEntry → Int → List DirEntry × Nat × Nat
  | [], _ => ([], 0, 0)
  | e :: rest, threshold =>
    let r := sweepEntries rest threshold
    if e.mtime < threshold then
      if e.isDir then (r.1, r.2.1, r.2.2 + 1) else (r.1, r.2.1 + 1, r.2.2)
    else (e :: r.1, r.2.1, r.2.2)

/-- `cleanup_old_files(directory, max_age_hours)` (lines 10-48).  `dir` is
`none` when the directory does not exist (the function logs and returns
without touching anything and without raising).  Time is in seconds, so
`threshold = now - timedelta(hours=max_age_hours)` becomes
`now - 3600 * max_age_hours`.  Returns the directory content after the
sweep. -/
def cleanup_old_files (dir : Option (List DirEntry)) (now : Int)
    (max_age_hours : Int) : Option (List DirEntry) :=
  match dir with
  | none => none
  | some entries =>
    let threshold := now - 3600 * max_age_hours
    some (sweepEntries entries threshold).1

/-- `cleanup_old_files` called without `max_age_hours`, whose default is
24 (line 10). -/
def cleanup_old_files_default (dir : Option (List DirEntry)) (now : Int) :
    Option (List DirEntry) :=
  cleanup_old_files dir now 24

/-! ## Helper lemmas -/

/-- Whatever `finishConvert` accepts points at an existing file: the only
`.ok` branch is guarded by the `os.path.exists` check of line 161. -/
theorem finishConvert_ok_isSome (fs : String → Option Nat) (a b c d : String)
    (e : Except String RetVal) (r : ConvertResult)
    (h : finishConvert fs a b c d e = .ok r) : (fs r.output_path).isSome := by
  unfold finishConvert at h
  split at h
  · exact absurd h (by simp)
  · split at h
    · exact absurd h (by simp)
    · split at h
      · exact absurd h (by simp)
      · split at h
        · split at h
          · obtain rfl := (Except.ok.injEq _ _).mp h.symm
            simp_all
          · exact absurd h (by simp)
        · exact absurd h (by simp)

/-- When no dispatch branch fires, `convert_file` leaves
`result["output_path"]` as the initial `""` and raises the not-supported
error, independently of the filesystem and of every strategy function. -/
theorem convert_file_not_dispatched (fs : String → Option Nat)
    (strat : Strategy → Except String RetVal) (ip fmt op : String)
    (of : Option String) (hd : dispatch (pyExtLower ip) fmt = none) :
    convert_file fs strat ip fmt op of
      = .error (notSupportedMsg (pyExtLower ip) fmt) := by
  simp [convert_file, hd, finishConvert, isFalsy]

/-- A dispatched strategy whose normalized result is the empty string hits
the same falsy check (line 144) and the same not-supported error. -/
theorem convert_file_dispatched_empty (fs : String → Option Nat)
    (ip fmt op : String) (of : Option String) (s : Strategy)
    (hs : dispatch (pyExtLower ip) fmt = some s) :
    convert_file fs (fun _ => .ok (.pyStr "")) ip fmt op of
      = .error (notSupportedMsg (pyExtLower ip) fmt) := by
  simp [convert_file, hs, process_result, finishConvert, isFalsy]

/-- The LibreOffice candidate loop finds no success when every candidate
fails. -/
theorem anySuccess_map_failure (rl : List String) :
    anySuccess (rl.map .failure) = false := by
  induction rl with
  | nil => rfl
  | cons a l ih => simpa [anySuccess] using ih

/-- The entries kept by the sweep loop are exactly the entries whose
modification time is not strictly older than the threshold. -/
theorem sweepEntries_kept_eq_filter (t : Int) (entries : List DirEntry) :
    (sweepEntries entries t).1
      = entries.filter (fun e => !decide (e.mtime < t)) := by
  induction entries with
  | nil => rfl
  | cons a rest ih =>
    by_cases hm : a.mtime < t
    · by_cases hd : a.isDir <;>
        simp [sweepEntries, hm, hd, ih, List.filter_cons]
    · simp [sweepEntries, hm, ih, List.filter_cons]

/-! ## Claims -/

/-- C1 (counterexample): `convert_file` only checks `os.path.exists`
(line 161), not the size of the artifact, so with a filesystem holding a
zero-byte file at `out.docx` and a strategy returning that path, it returns
a result record pointing at the zero-byte file instead of raising. -/
theorem convert_file_zero_byte_counterexample :
    convert_file (fun p => if p = "out.docx" then some 0 else none)
        (fun _ => .ok (.pyStr "out.docx")) "in.pdf" "docx" "out.docx" none
      = .ok { output_path := "out.docx", original_filename := "in.pdf",
              output_filename := "out.docx", input_format := "pdf",
              output_format := "docx" }
    ∧ (fun p => if p = "out.docx" then some 0 else none) "out.docx" = some 0 := by
  constructor <;> rfl

/-- C1 (amended): whenever `convert_file` returns a result record, the file
at the record's `output_path` exists on disk; existence is the only
post-condition checked — the artifact may be zero-byte. -/
theorem convert_file_output_exists (fs : String → Option Nat)
    (strat : Strategy → Except String RetVal) (ip fmt op : String)
    (of : Option String) (r : ConvertResult)
    (h : convert_file fs strat ip fmt op of = .ok r) :
    (fs r.output_path).isSome := by
  unfold convert_file at h
  exact finishConvert_ok_isSome fs _ fmt _ _ _ r h

/-- C1 (witness). -/
theorem convert_file_output_exists_witness :
    ((fun p => if p = "out.docx" then some 0 else none) "out.docx").isSome :=
  convert_file_output_exists (fun p => if p = "out.docx" then some 0 else none)
    (fun _ => .ok (.pyStr "out.docx")) "in.pdf" "docx" "out.docx" none
    { output_path := "out.docx", original_filename := "in.pdf",
      output_filename := "out.docx", input_format := "pdf",
      output_format := "docx" } (by rfl)

/-- C2: the dispatch chain of `convert_file` fires exactly for the format
pairs of `app.py`'s `supported_formats` table, and for every other pair
`convert_file` raises the not-supported error — whatever the filesystem and
the strategy functions do, so no conversion work can influence or retry
it. -/
theorem dispatch_supported_pairs_spec (ext fmt : String) :
    ((dispatch ext fmt).isSome ↔ (ext, fmt) ∈ supportedPairs)
    ∧ (dispatch ext fmt = none →
        ∀ (fs : String → Option Nat) (strat : Strategy → Except String RetVal)
          (ip op : String) (of : Option String), pyExtLower ip = ext →
          convert_file fs strat ip fmt op of = .error (notSupportedMsg ext fmt)) := by
  constructor
  · constructor
    · intro h
      unfold dispatch at h
      split_ifs at h <;> simp_all [supportedPairs] <;> tauto
    · intro hm
      fin_cases hm <;> decide
  · intro hd fs strat ip op of hip
    rw [← hip] at hd ⊢
    exact convert_file_not_dispatched fs strat ip fmt op of hd

/-- C2 (witness). -/
theorem dispatch_supported_pairs_spec_witness :
    convert_file (fun _ => none) (fun _ => .ok (.pyStr "x")) "a.pdf" "gif"
        "out.gif" none
      = .error (notSupportedMsg "pdf" "gif") :=
  (dispatch_supported_pairs_spec "pdf" "gif").2 (by decide)
    (fun _ => none) (fun _ => .ok (.pyStr "x")) "a.pdf" "out.gif" none (by decide)

/-- C10: a dispatched strategy returning the empty-string path is
indistinguishable at the interface from an unregistered pair — both cases
raise the not-supported error of line 145, so the caller of a supported
pair is told the pair is unsupported. -/
theorem empty_path_reported_not_supported (fs : String → Option Nat)
    (ip fmt op : String) (of : Option String)
    (hd : (dispatch (pyExtLower ip) fmt).isSome) :
    convert_file fs (fun _ => .ok (.pyStr "")) ip fmt op of
      = .error (notSupportedMsg (pyExtLower ip) fmt)
    ∧ ∀ fmt' (strat : Strategy → Except String RetVal),
        dispatch (pyExtLower ip) fmt' = none →
        convert_file fs strat ip fmt' op of
          = .error (notSupportedMsg (pyExtLower ip) fmt') := by
  obtain ⟨s, hs⟩ := Option.isSome_iff_exists.mp hd
  exact ⟨convert_file_dispatched_empty fs ip fmt op of s hs,
         fun fmt' strat hn => convert_file_not_dispatched fs strat ip fmt' op of hn⟩

/-- C10 (witness). -/
theorem empty_path_reported_not_supported_witness :
    convert_file (fun _ => none) (fun _ => .ok (.pyStr "")) "a.pdf" "docx"
        "out.docx" none
      = .error (notSupportedMsg (pyExtLower "a.pdf") "docx") :=
  (empty_path_reported_not_supported (fun _ => none) "a.pdf" "docx" "out.docx"
    none (by decide)).1

/-- C3: for a dispatched strategy, a bare path `p`, the record
`{output_path: p}` and the doubly nested record
`{output_path: {output_path: p}}` all normalize to the same final path
(when the file exists, `convert_file` returns a record whose `output_path`
is `p` in all three cases); `None`, a record without the `output_path`
field, and a non-path value each raise the corresponding malformed-result
`ValueError`. -/
theorem normalizer_roundtrip_spec (fs : String → Option Nat) (ip fmt op : String)
    (of : Option String) (p : String) (hp : p ≠ "")
    (hd : (dispatch (pyExtLower ip) fmt).isSome) :
    (convert_file fs (fun _ => .ok (.pyStr p)) ip fmt op of
      = convert_file fs (fun _ => .ok (.pyDict [("output_path", .pyStr p)]))
          ip fmt op of)
    ∧ (convert_file fs (fun _ => .ok (.pyStr p)) ip fmt op of
      = convert_file fs (fun _ => .ok (.pyDict [("output_path",
          .pyDict [("output_path", .pyStr p)])])) ip fmt op of)
    ∧ ((fs p).isSome → ∀ r, convert_file fs (fun _ => .ok (.pyStr p)) ip fmt op of
          = .ok r → r.output_path = p)
    ∧ ((fs p).isSome → ∃ r, convert_file fs (fun _ => .ok (.pyStr p)) ip fmt op of
          = .ok r)
    ∧ convert_file fs (fun _ => .ok .pyNone) ip fmt op of = .error "转换结果为空"
    ∧ convert_file fs (fun _ => .ok (.pyDict [("path", .pyStr p)])) ip fmt op of
        = .error "转换结果字典缺少output_path字段"
    ∧ convert_file fs (fun _ => .ok (.pyInt 7)) ip fmt op of
        = .error ("转换结果类型不支持: " ++ typeName (.pyInt 7)) := by
  obtain ⟨s, hs⟩ := Option.isSome_iff_exists.mp hd
  have hpb : (p == "") = false := beq_eq_false_iff_ne.mpr hp
  refine ⟨?_, ?_, ?_, ?_, ?_, ?_, ?_⟩
  · simp [convert_file, hs, process_result, finishConvert, isFalsy, hpb,
      unwrapNested, dictLookup]
  · simp [convert_file, hs, process_result, finishConvert, isFalsy, hpb,
      unwrapNested, dictLookup]
  · intro hfs r hr
    simp [convert_file, hs, process_result, finishConvert, isFalsy, hpb,
      unwrapNested, hfs] at hr
    simp [← hr]
  · intro hfs
    refine ⟨{ output_path := p,
              original_filename := match of with
                | some n => n
                | none => pyBasename ip,
              output_filename := pyBasename op,
              input_format := pyExtLower ip,
              output_format := fmt }, ?_⟩
    simp [convert_file, hs, process_result, finishConvert, isFalsy, hpb,
      unwrapNested, hfs]
  · simp [convert_file, hs, process_result, finishConvert]
  · simp [convert_file, hs, process_result, finishConvert, dictLookup]
  · simp [convert_file, hs, process_result, finishConvert]

/-- C3 (witness). -/
theorem normalizer_roundtrip_spec_witness :
    convert_file (fun _ => some 5) (fun _ => .ok (.pyStr "res.docx"))
        "a.pdf" "docx" "o.docx" none
      = convert_file (fun _ => some 5)
          (fun _ => .ok (.pyDict [("output_path", .pyStr "res.docx")]))
          "a.pdf" "docx" "o.docx" none :=
  (normalizer_roundtrip_spec (fun _ => some 5) "a.pdf" "docx" "o.docx" none
    "res.docx" (by decide) (by decide)).1

/-- C4 (counterexample): when every technique of the Excel→PDF (resp.
PPT→PDF) chain fails, the raised error is a fixed message: two runs whose
techniques fail for entirely different reasons surface the identical
error, so the error cannot carry the per-technique failure reasons. -/
theorem office_chain_reasons_discarded :
    excel_to_pdf false (.failure "COM unavailable")
        [.failure "libreoffice missing"] (.failure "matplotlib missing")
        (.failure "fpdf broken") "o.pdf"
      = .error "Excel转PDF失败: 所有Excel转PDF方法均失败"
    ∧ excel_to_pdf false (.failure "w") [.failure "x"] (.failure "y")
        (.failure "z") "o.pdf"
      = excel_to_pdf false (.failure "COM unavailable")
          [.failure "libreoffice missing"] (.failure "matplotlib missing")
          (.failure "fpdf broken") "o.pdf"
    ∧ ppt_to_pdf false (.failure "r1") [.failure "r2"] (.failure "r3") "o.pdf"
      = .error "PPT转PDF失败: 所有PPT转PDF方法均失败" :=
  ⟨rfl, rfl, rfl⟩

/-- C4 (amended): whenever every technique in the Excel→PDF or PPT→PDF
fallback chain fails, the error surfaced to the caller is the strategy's
fixed all-methods-failed message, independent of the individual failure
reasons (which are only logged, lines 1290-1291 and 1437-1438). -/
theorem office_chain_exhaustion_error_fixed :
    (∀ (w : Bool) (rc : String) (rl : List String) (rm rf op : String),
      excel_to_pdf w (.failure rc) (rl.map .failure) (.failure rm)
          (.failure rf) op
        = .error "Excel转PDF失败: 所有Excel转PDF方法均失败")
    ∧ (∀ (w : Bool) (rc : String) (rl : List String) (rr op : String),
      ppt_to_pdf w (.failure rc) (rl.map .failure) (.failure rr) op
        = .error "PPT转PDF失败: 所有PPT转PDF方法均失败") := by
  constructor
  · intro w rc rl rm rf op
    simp [excel_to_pdf, anySuccess_map_failure]
  · intro w rc rl rr op
    simp [ppt_to_pdf, anySuccess_map_failure]

/-- C5: a multi-page render produces a single zip archive at
`splitext(output_path)[0] + ".zip"` with one entry per page, named
`page_1`, `page_2`, ... in page order; a single-page render produces the
image at `output_path` with no archive; in particular a 3-page render
yields one archive holding exactly 3 images. -/
theorem pdf_to_images_paging_spec {α : Type} (render : Int → List α)
    (op : String) (q : Int) (fmt : String) :
    (1 < (render (images_dpi q)).length →
      pdf_to_images render op q fmt
        = .ok (.archive ((pySplitext op).1 ++ ".zip")
                 (imageEntries (render (images_dpi q)) fmt),
               (pySplitext op).1 ++ ".zip")
      ∧ (imageEntries (render (images_dpi q)) fmt).length
          = (render (images_dpi q)).length
      ∧ (imageEntries (render (images_dpi q)) fmt).map Prod.snd
          = render (images_dpi q)
      ∧ ∀ (i : Nat) (hi : i < (imageEntries (render (images_dpi q)) fmt).length),
          ((imageEntries (render (images_dpi q)) fmt).get ⟨i, hi⟩).1
            = "page_" ++ toString (i + 1) ++ "." ++ fmt)
    ∧ ((render (images_dpi q)).length = 1 →
        ∃ img, render (images_dpi q) = [img]
          ∧ pdf_to_images render op q fmt = .ok (.single op img, op))
    ∧ ((render (images_dpi q)).length = 3 →
        pdf_to_images render op q fmt
          = .ok (.archive ((pySplitext op).1 ++ ".zip")
                   (imageEntries (render (images_dpi q)) fmt),
                 (pySplitext op).1 ++ ".zip")
        ∧ (imageEntries (render (images_dpi q)) fmt).length = 3) := by
  have hlen : ∀ images : List α, (imageEntries images fmt).length = images.length := by
    intro images
    simp [imageEntries]
  have harch : 1 < (render (images_dpi q)).length →
      pdf_to_images render op q fmt
        = .ok (.archive ((pySplitext op).1 ++ ".zip")
                 (imageEntries (render (images_dpi q)) fmt),
               (pySplitext op).1 ++ ".zip") := by
    intro h
    simp [pdf_to_images, h]
  refine ⟨fun h => ⟨harch h, hlen _, ?_, ?_⟩, ?_, fun h3 => ⟨harch (by omega), by rw [hlen, h3]⟩⟩
  · have hsnd : (Prod.snd ∘ fun pr : Nat × α =>
        ("page_" ++ toString (pr.1 + 1) ++ "." ++ fmt, pr.2)) = Prod.snd := by
      funext pr
      rfl
    simp only [imageEntries, List.map_map, hsnd, List.enum_map_snd]
  · intro i hi
    simp [imageEntries]
  · intro h1
    obtain ⟨a, ha⟩ := List.length_eq_one.mp h1
    exact ⟨a, ha, by simp [pdf_to_images, ha]⟩

/-- C5 (witness). -/
theorem pdf_to_images_paging_spec_witness :
    pdf_to_images (fun _ => [7, 8, 9]) "res/out.jpg" 2 "jpg"
      = .ok (.archive ((pySplitext "res/out.jpg").1 ++ ".zip")
               (imageEntries ((fun _ : Int => [7, 8, 9]) (images_dpi 2)) "jpg"),
             (pySplitext "res/out.jpg").1 ++ ".zip")
    ∧ (imageEntries ((fun _ : Int => [7, 8, 9]) (images_dpi 2)) "jpg").length = 3 :=
  (pdf_to_images_paging_spec (fun _ => [7, 8, 9]) "res/out.jpg" 2 "jpg").2.2
    (by decide)

/-- C6: the DPI the PDF→image strategy feeds to the renderer is
`100 * quality`: 100, 200, 300 at quality 1, 2, 3, and strictly increasing
in the quality parameter. -/
theorem images_dpi_quality_scaling :
    images_dpi 1 = 100 ∧ images_dpi 2 = 200 ∧ images_dpi 3 = 300
    ∧ ∀ q q' : Int, q < q' → images_dpi q < images_dpi q' := by
  refine ⟨rfl, rfl, rfl, fun q q' h => ?_⟩
  simp only [images_dpi]
  omega

/-- C6 (witness). -/
theorem images_dpi_quality_scaling_witness :
    images_dpi 1 < images_dpi 2 :=
  images_dpi_quality_scaling.2.2.2 1 2 (by decide)

/-- C7: every PDF→CAD request (dwg, dxf and cad all route to the stub)
succeeds rather than erroring: the returned artifact is the instructional
notice text file, and a copy of the source PDF is written next to it. -/
theorem pdf_to_cad_stub_spec :
    dispatch "pdf" "dwg" = some .pdfToCad
    ∧ dispatch "pdf" "dxf" = some .pdfToCad
    ∧ dispatch "pdf" "cad" = some .pdfToCad
    ∧ ∀ (ip op : String) (q : Int) (t : String),
        pdf_to_cad ip op q t
          = .ok ([⟨(pySplitext op).1 ++ ".txt",
                   .text (cadNotice (pyToUpper (pyExtLower op)) (pyBasename ip) t)⟩,
                  ⟨(pySplitext op).1 ++ ".pdf", .copyOf ip⟩],
                 (pySplitext op).1 ++ ".txt") :=
  ⟨by decide, by decide, by decide, fun ip op q t => rfl⟩

/-- C8: the degradation pipeline of `pdf_to_scannable_pdf` applies, to
every page alike, operations that do not depend on the page's dimensions
or mode: blur radius 0.5 and speckle count 3000 are fixed constants
(applied when quality < 3, the qualities at which the degradation runs). -/
theorem scan_degradation_constants_spec :
    (∀ (q : Int) (i1 i2 : PageImg), scan_page_ops q i1 = scan_page_ops q i2)
    ∧ (∀ img : PageImg,
        scan_page_ops 1 img
          = [.gaussianBlur (1/2 : ℚ), .contrastEnhance (6/5 : ℚ), .addNoise 3000]
        ∧ scan_page_ops 2 img
          = [.gaussianBlur (1/2 : ℚ), .contrastEnhance (6/5 : ℚ), .addNoise 3000]
        ∧ scan_page_ops 3 img = [])
    ∧ (∀ (pages : List PageImg) (q : Int) (ops1 ops2 : List ImgOp),
        ops1 ∈ pdf_to_scannable_ops pages q → ops2 ∈ pdf_to_scannable_ops pages q →
        ops1 = ops2) := by
  refine ⟨fun q i1 i2 => rfl,
    fun img => ⟨by norm_num [scan_page_ops], by norm_num [scan_page_ops],
                by norm_num [scan_page_ops]⟩, ?_⟩
  intro pages q ops1 ops2 h1 h2
  obtain ⟨p1, _, rfl⟩ := List.mem_map.mp h1
  obtain ⟨p2, _, rfl⟩ := List.mem_map.mp h2
  rfl

/-- C8 (witness). -/
theorem scan_degradation_constants_spec_witness :
    scan_page_ops 1 ⟨100, 200, "RGB"⟩ = scan_page_ops 1 ⟨5, 5, "L"⟩ :=
  scan_degradation_constants_spec.2.2 [⟨100, 200, "RGB"⟩, ⟨5, 5, "L"⟩] 1
    (scan_page_ops 1 ⟨100, 200, "RGB"⟩) (scan_page_ops 1 ⟨5, 5, "L"⟩)
    (by simp [pdf_to_scannable_ops]) (by simp [pdf_to_scannable_ops])

/-- C9: the retention sweep keeps exactly the top-level entries whose
modification time is not strictly older than `now - max_age_hours`
(seconds: `now - 3600 * max_age_hours`), deletes the strictly older ones,
is a silent no-op on a missing directory, and defaults `max_age_hours` to
24. -/
theorem cleanup_retention_spec :
    (∀ (entries kept : List DirEntry) (now h : Int),
        cleanup_old_files (some entries) now h = some kept →
        ∀ e : DirEntry, e ∈ kept ↔ e ∈ entries ∧ ¬ e.mtime < now - 3600 * h)
    ∧ (∀ now h : Int, cleanup_old_files none now h = none)
    ∧ (∀ (d : Option (List DirEntry)) (now : Int),
        cleanup_old_files_default d now = cleanup_old_files d now 24) := by
  refine ⟨?_, fun now h => rfl, fun d now => rfl⟩
  intro entries kept now h hck e
  simp only [cleanup_old_files] at hck
  obtain rfl := Option.some.inj hck
  rw [sweepEntries_kept_eq_filter]
  simp [List.mem_filter]

/-- C9 (witness). -/
theorem cleanup_retention_spec_witness :
    ((⟨"old.pdf", 0, false⟩ : DirEntry)
        ∈ ([⟨"new.pdf", 100000, false⟩] : List DirEntry))
      ↔ ((⟨"old.pdf", 0, false⟩ : DirEntry)
            ∈ ([⟨"old.pdf", 0, false⟩, ⟨"new.pdf", 100000, false⟩] : List DirEntry)
          ∧ ¬ (⟨"old.pdf", 0, false⟩ : DirEntry).mtime < 90000 - 3600 * 24) :=
  cleanup_retention_spec.1 [⟨"old.pdf", 0, false⟩, ⟨"new.pdf", 100000, false⟩]
    [⟨"new.pdf", 100000, false⟩] 90000 24 (by decide) ⟨"old.pdf", 0, false⟩

end Zhuanhuan
